import Mathlib

/-!
Shallow embedding of the `taxifaremodel` package (`model.py` and `task.py`)
written by the notebook `courses/machine_learning/deepdive/02_tensorflow/f_cloudmle.ipynb`,
together with proofs of the specification claims about it.

Machine numbers are modelled exactly: Python/TF integers as `Int`,
decimal CSV fields as exact decimals (`Dec`), real-valued metrics as `ℝ`.
-/

namespace TaxifareModel

/-- An exact decimal number `mant / 10 ^ exp`, the value denoted by a
decimal literal such as `-73.9` (`mant = -739`, `exp = 1`). -/
structure Dec where
  mant : Int
  exp : Nat
deriving DecidableEq

/-- The rational number an exact decimal denotes. -/
def Dec.toRat (d : Dec) : Rat := (d.mant : Rat) / (10 : Rat) ^ d.exp

/-- Negation of an exact decimal. -/
def Dec.neg (d : Dec) : Dec := ⟨-d.mant, d.exp⟩

/-- A parsed CSV field value: `tf.decode_csv` produces either an integer
tensor or a floating-point tensor, according to the type of the column's
default.  Decimal text is modelled exactly. -/
inductive Value where
  | I : Int → Value
  | F : Dec → Value
deriving DecidableEq

/-- The dtype of a parsed value (`int32` vs `float32` columns). -/
inductive DType where
  | int32
  | float32
deriving DecidableEq

/-- dtype of a parsed value. -/
def Value.dtype : Value → DType
  | .I _ => .int32
  | .F _ => .float32

/-- `CSV_COLUMN_NAMES` from `model.py`. -/
def CSV_COLUMN_NAMES : List String :=
  ["fare_amount", "dayofweek", "hourofday", "pickuplon", "pickuplat", "dropofflon", "dropofflat"]

/-- `CSV_DEFAULTS` from `model.py`:
`[[0.0],[1],[0],[-74.0],[40.0],[-74.0],[40.7]]`.
Each singleton default list is modelled by the typed value it wraps. -/
def CSV_DEFAULTS : List Value :=
  [.F ⟨0, 1⟩, .I 1, .I 0, .F ⟨-740, 1⟩, .F ⟨400, 1⟩, .F ⟨-740, 1⟩, .F ⟨407, 1⟩]

/-- `FEATURE_NAMES = CSV_COLUMN_NAMES[1:]` from `model.py`. -/
def FEATURE_NAMES : List String := CSV_COLUMN_NAMES.drop 1

/-! ### Decimal field parsing (the semantics of `tf.decode_csv` on one field) -/

/-- Numeric value of a digit string (most significant first). -/
def digitsVal (cs : List Char) : Nat :=
  cs.foldl (fun n c => 10 * n + (c.toNat - 48)) 0

/-- Parse a non-empty all-digit string to a natural number. -/
def parseDigits (cs : List Char) : Option Nat :=
  if !cs.isEmpty && cs.all Char.isDigit then some (digitsVal cs) else Option.none

/-- Split a character list at every occurrence of `sep`. -/
def splitOnChar (sep : Char) : List Char → List (List Char)
  | [] => [[]]
  | c :: rest =>
    let r := splitOnChar sep rest
    if c = sep then [] :: r
    else
      match r with
      | [] => [[c]]
      | g :: gs => (c :: g) :: gs

/-- Parse an unsigned decimal literal (`12`, `12.5`, `12.`, `.5`) exactly. -/
def parseUnsignedDec (cs : List Char) : Option Dec :=
  match splitOnChar '.' cs with
  | [i] => (parseDigits i).map (fun n => (⟨(n : Int), 0⟩ : Dec))
  | [i, f] =>
    if i.isEmpty && f.isEmpty then Option.none
    else if i.all Char.isDigit && f.all Char.isDigit then
      some ⟨(digitsVal i : Int) * (10 : Int) ^ f.length + (digitsVal f : Int),
            f.length⟩
    else Option.none
  | _ => Option.none

/-- Parse an optionally signed decimal literal to an exact decimal. -/
def parseFloatS (s : String) : Option Dec :=
  match s.data with
  | '-' :: rest => (parseUnsignedDec rest).map Dec.neg
  | '+' :: rest => parseUnsignedDec rest
  | cs => parseUnsignedDec cs

/-- Parse an optionally signed integer literal. -/
def parseIntS (s : String) : Option Int :=
  match s.data with
  | '-' :: rest => (parseDigits rest).map (fun n => -(n : Int))
  | '+' :: rest => (parseDigits rest).map (fun n => (n : Int))
  | cs => (parseDigits cs).map (fun n => (n : Int))

/-- One field of `tf.decode_csv`: an empty field is replaced by the column's
default; a non-empty field is parsed at the type of the column's default. -/
def parseField (dflt : Value) (s : String) : Option Value :=
  if s = "" then some dflt
  else
    match dflt with
    | .I _ => (parseIntS s).map .I
    | .F _ => (parseFloatS s).map .F

/-- Parse each field against the matching default; fails when the number of
fields differs from the number of defaults or any field fails to parse. -/
def parseAll : List Value → List String → Option (List Value)
  | [], [] => some []
  | d :: ds, s :: ss =>
    match parseField d s, parseAll ds ss with
    | some v, some vs => some (v :: vs)
    | _, _ => Option.none
  | _ :: _, [] => Option.none
  | [], _ :: _ => Option.none

/-- `tf.decode_csv(records = row, record_defaults = CSV_DEFAULTS)` applied to
the comma-split fields of one row. -/
def decodeCsv (fields : List String) : Option (List Value) :=
  parseAll CSV_DEFAULTS fields

/-- Comma-splitting of a row string into its fields. -/
def splitRow (row : String) : List String :=
  (splitOnChar ',' row.data).map (fun cs => String.mk cs)

/-- Python `dict.pop k`: the value at `k` together with the dictionary with
`k` removed; `none` models the `KeyError` when `k` is absent. -/
def dictPop (d : List (String × Value)) (k : String) :
    Option (Value × List (String × Value)) :=
  match d.lookup k with
  | some v => some (v, d.filter (fun kv => kv.1 != k))
  | Option.none => Option.none

/-- `parse_row` from `model.py`:
decode the row, zip the fields with `CSV_COLUMN_NAMES` into a dict,
then pop `"fare_amount"` as the label. -/
def parse_row (row : String) : Option (List (String × Value) × Value) :=
  match decodeCsv (splitRow row) with
  | Option.none => Option.none
  | some fields =>
    match dictPop (CSV_COLUMN_NAMES.zip fields) "fare_amount" with
    | some (label, features) => some (features, label)
    | Option.none => Option.none

/-- `read_dataset` from `model.py`, over the resolved list of files
(each file a list of its lines, in order): every file's first line is
skipped (`.skip(count = 1)`), the remaining lines are concatenated in
order (`flat_map`) and each is parsed (`.map(map_func = parse_row)`). -/
def read_dataset (files : List (List String)) :
    List (Option (List (String × Value) × Value)) :=
  (files.flatMap (fun lines => lines.drop 1)).map parse_row

/-! ### Serving input receiver -/

/-- The placeholder dictionary built by `serving_input_receiver_fn` in
`model.py`: each feature name with the dtype of its placeholder. -/
def serving_input_receiver_fn : List (String × DType) :=
  [("dayofweek", .int32), ("hourofday", .int32),
   ("pickuplon", .float32), ("pickuplat", .float32),
   ("dropofflat", .float32), ("dropofflon", .float32)]

/-! ### The estimator model (`my_rmse`, `create_model`) -/

/-- `tf.feature_column.numeric_column(key = k)`. -/
structure NumericColumn where
  key : String
deriving DecidableEq

/-- `tf.feature_column.numeric_column`. -/
def numeric_column (key : String) : NumericColumn := ⟨key⟩

/-- `tf.estimator.RunConfig` as configured by `create_model`. -/
structure RunConfig where
  tf_random_seed : Int
  save_checkpoints_steps : Int
  model_dir : String
deriving DecidableEq

/-- `tf.squeeze(input = t, axis = -1)` on a rank-2 tensor: defined exactly
when every row of the last axis has extent 1. -/
def squeeze (xs : List (List ℝ)) : Option (List ℝ) :=
  if xs.all (fun v => v.length == 1) then some (xs.filterMap List.head?)
  else Option.none

/-- `tf.metrics.root_mean_squared_error(labels, predictions)`:
the square root of the mean of the squared residuals. -/
noncomputable def root_mean_squared_error (labels pred_values : List ℝ) : ℝ :=
  let sq := List.zipWith (fun l p => (l - p) ^ 2) labels pred_values
  Real.sqrt (sq.sum / (sq.length : ℝ))

/-- `my_rmse` from `model.py`: squeeze the `"predictions"` entry of the
prediction dictionary and report the metric dictionary
`{"rmse": root_mean_squared_error(labels, pred_values)}`. -/
noncomputable def my_rmse (labels : List ℝ)
    (predictions : List (String × List (List ℝ))) :
    Option (List (String × ℝ)) :=
  (predictions.lookup "predictions").bind fun p =>
    (squeeze p).map fun pred_values =>
      [("rmse", root_mean_squared_error labels pred_values)]

/-- A metric function in the sense of `tf.contrib.estimator.add_metrics`. -/
def MetricFn : Type :=
  List ℝ → List (String × List (List ℝ)) → Option (List (String × ℝ))

/-- The estimator built by `create_model`: a `DNNRegressor`'s static
configuration plus the metrics added by `add_metrics`. -/
structure EstimatorSpec where
  hidden_units : List Nat
  feature_columns : List NumericColumn
  config : RunConfig
  metric_fns : List MetricFn

/-- `tf.estimator.DNNRegressor(hidden_units, feature_columns, config)`:
a fresh estimator with no extra metrics. -/
def DNNRegressor (hidden_units : List Nat)
    (feature_columns : List NumericColumn) (config : RunConfig) :
    EstimatorSpec :=
  ⟨hidden_units, feature_columns, config, []⟩

/-- `tf.contrib.estimator.add_metrics(model, f)`. -/
def add_metrics (model : EstimatorSpec) (f : MetricFn) : EstimatorSpec :=
  { model with metric_fns := model.metric_fns ++ [f] }

/-- `create_model` from `model.py`.  Python's `train_steps // 10` is floor
division, `Int.fdiv`. -/
noncomputable def create_model (model_dir : String) (train_steps : Int) :
    EstimatorSpec :=
  let config : RunConfig :=
    { tf_random_seed := 1,
      save_checkpoints_steps := max 10 (Int.fdiv train_steps 10),
      model_dir := model_dir }
  let feature_cols := FEATURE_NAMES.map (fun k => numeric_column k)
  let model := DNNRegressor [10, 10] feature_cols config
  add_metrics model my_rmse

/-! ### Filesystem semantics of `shutil.rmtree` -/

/-- `p` names the directory `dir` itself or a path inside it. -/
def isUnder (dir p : String) : Bool :=
  p == dir || List.isPrefixOf (dir.data ++ ['/']) p.data

/-- The underlying recursive deletion: removing a tree that does not exist
raises `FileNotFoundError`.  The filesystem is the list of its paths. -/
def rmtreeRaw (dir : String) (fs : List String) :
    Except String (List String) :=
  if fs.any (fun p => isUnder dir p) then
    .ok (fs.filter (fun p => !isUnder dir p))
  else .error "FileNotFoundError"

/-- `shutil.rmtree(path = dir, ignore_errors = b)`: with `b = true` a
deletion failure is suppressed and the call returns normally. -/
def shutil_rmtree (dir : String) (b : Bool) (fs : List String) :
    Except String (List String) :=
  match rmtreeRaw dir fs with
  | .ok fs' => .ok fs'
  | .error e => if b then .ok fs else .error e

/-! ### `train_and_evaluate` and the CLI (`task.py`) -/

/-- A value stored in the parsed-argument dictionary. -/
inductive ArgVal where
  | s : String → ArgVal
  | i : Int → ArgVal
  | vnone : ArgVal
deriving DecidableEq

/-- Reading a string-valued entry of the parameter dictionary, as Python's
`params[k]` does: a missing key raises `KeyError`. -/
def getStr (params : List (String × ArgVal)) (k : String) :
    Except String String :=
  match params.lookup k with
  | some (ArgVal.s v) => .ok v
  | some _ => .error ("TypeError: " ++ k)
  | Option.none => .error ("KeyError: " ++ k)

/-- Reading an integer-valued entry of the parameter dictionary. -/
def getInt (params : List (String × ArgVal)) (k : String) :
    Except String Int :=
  match params.lookup k with
  | some (ArgVal.i v) => .ok v
  | some _ => .error ("TypeError: " ++ k)
  | Option.none => .error ("KeyError: " ++ k)

/-- `tf.estimator.TrainSpec(input_fn = train_input_fn(path), max_steps)`. -/
structure TrainSpec where
  input_path : String
  max_steps : Int
deriving DecidableEq

/-- `tf.estimator.EvalSpec(input_fn = eval_input_fn(path), steps = None,
start_delay_secs = 1, throttle_secs = 1, exporters = exporter)`. -/
structure EvalSpec where
  input_path : String
  steps : Option Int
  start_delay_secs : Int
  throttle_secs : Int
  exporter_name : String
deriving DecidableEq

/-- An externally visible effect performed by `train_and_evaluate`,
in program order. -/
inductive Event where
  | rmtree : String → Bool → Event
  | tfTrainAndEvaluate : Event
deriving DecidableEq

/-- The run assembled by `train_and_evaluate`: the estimator, the train and
eval specs, and the ordered effects it performs. -/
structure RunPlan where
  model : EstimatorSpec
  train_spec : TrainSpec
  eval_spec : EvalSpec
  effects : List Event

/-- Output directory the plan was built over (`create_model(OUTDIR, ...)`). -/
def planOutputDir (p : RunPlan) : String := p.model.config.model_dir

/-- Training-data path read by the plan's `TrainSpec`. -/
def planTrainPath (p : RunPlan) : String := p.train_spec.input_path

/-- Evaluation-data path read by the plan's `EvalSpec`. -/
def planEvalPath (p : RunPlan) : String := p.eval_spec.input_path

/-- `max_steps` read by the plan's `TrainSpec`. -/
def planTrainSteps (p : RunPlan) : Int := p.train_spec.max_steps

/-- `train_and_evaluate(params)` from `model.py`: read `output_dir`,
`train_data_path`, `eval_data_path` and `train_steps` from the parameter
dictionary, build the model and the two specs, then delete the output
directory with `ignore_errors = True` and hand off to
`tf.estimator.train_and_evaluate`. -/
noncomputable def train_and_evaluate (params : List (String × ArgVal)) :
    Except String RunPlan := do
  let OUTDIR ← getStr params "output_dir"
  let TRAIN_DATA_PATH ← getStr params "train_data_path"
  let EVAL_DATA_PATH ← getStr params "eval_data_path"
  let TRAIN_STEPS ← getInt params "train_steps"
  let model := create_model OUTDIR TRAIN_STEPS
  pure
    { model := model,
      train_spec := { input_path := TRAIN_DATA_PATH, max_steps := TRAIN_STEPS },
      eval_spec :=
        { input_path := EVAL_DATA_PATH, steps := Option.none,
          start_delay_secs := 1, throttle_secs := 1,
          exporter_name := "exporter" },
      effects := [Event.rmtree OUTDIR true, Event.tfTrainAndEvaluate] }

/-- The dictionary `parser.parse_args().__dict__` that a successful parse
produces in `task.py`. -/
def mkDict (t : String) (n : Int) (e : String) (o : String)
    (jd : Option String) : List (String × ArgVal) :=
  [("train_data_path", ArgVal.s t),
   ("train_steps", ArgVal.i n),
   ("eval_data_path", ArgVal.s e),
   ("output_dir", ArgVal.s o),
   ("job_dir", jd.elim ArgVal.vnone ArgVal.s)]

/-- The `argparse` configuration of `task.py` applied to the provided
argument values: `--train_data_path`, `--eval_data_path` and `--output_dir`
are required, `--train_steps` has `type = int` and `default = 1000`, and
`--job-dir` is optional with default `None`. -/
def parseArgs (tdp ts edp od jd : Option String) :
    Except String (List (String × ArgVal)) :=
  match tdp with
  | Option.none => .error "the following arguments are required: --train_data_path"
  | some t =>
    match edp with
    | Option.none => .error "the following arguments are required: --eval_data_path"
    | some e =>
      match od with
      | Option.none => .error "the following arguments are required: --output_dir"
      | some o =>
        match ts with
        | Option.none => .ok (mkDict t 1000 e o jd)
        | some s =>
          match parseIntS s with
          | some n => .ok (mkDict t n e o jd)
          | Option.none => .error "argument --train_steps: invalid int value"

/-- The `__main__` block of `task.py`: parse the command line and pass the
resulting dictionary, unchanged, to `model.train_and_evaluate`. -/
noncomputable def task_main (tdp ts edp od jd : Option String) :
    Except String RunPlan :=
  (parseArgs tdp ts edp od jd).bind train_and_evaluate

/-! ### Concrete sample inputs used by the witnesses -/

/-- A sample CSV row whose fields all parse. -/
def demoRow : String := "10.5,3,0,-74.5,40.5,-73.5,41.5"

/-- The feature dictionary `parse_row` produces on `demoRow`. -/
def demoFeatures : List (String × Value) :=
  [("dayofweek", Value.I 3), ("hourofday", Value.I 0),
   ("pickuplon", Value.F ⟨-745, 1⟩), ("pickuplat", Value.F ⟨405, 1⟩),
   ("dropofflon", Value.F ⟨-735, 1⟩), ("dropofflat", Value.F ⟨415, 1⟩)]

/-- A sample list of already comma-split fields, three of them empty. -/
def demoFields : List String := ["", "3", "", "-73.9", "40.7", "", ""]

/-- The values `decodeCsv` produces on `demoFields`. -/
def demoOut : List Value :=
  [Value.F ⟨0, 1⟩, Value.I 3, Value.I 0, Value.F ⟨-739, 1⟩, Value.F ⟨407, 1⟩,
   Value.F ⟨-740, 1⟩, Value.F ⟨407, 1⟩]

/-- The parameter dictionary produced by a sample successful CLI parse. -/
def demoDict : List (String × ArgVal) :=
  mkDict "t.csv" 1000 "e.csv" "out" Option.none

/-- The run plan `train_and_evaluate` assembles from `demoDict`. -/
noncomputable def demoPlan : RunPlan :=
  { model := create_model "out" 1000,
    train_spec := { input_path := "t.csv", max_steps := 1000 },
    eval_spec :=
      { input_path := "e.csv", steps := Option.none,
        start_delay_secs := 1, throttle_secs := 1,
        exporter_name := "exporter" },
    effects := [Event.rmtree "out" true, Event.tfTrainAndEvaluate] }

/-! ### Helper lemmas -/

/-- Inversion of `parseAll`: on success the fields, the defaults and the
output all have the same length, and position `i` of the output is the
parse of field `i` against default `i`. -/
theorem parseAll_some :
    ∀ (ds : List Value) (ss : List String) (out : List Value),
      parseAll ds ss = some out →
      ss.length = ds.length ∧ out.length = ds.length ∧
      ∀ i (hd : i < ds.length) (hs : i < ss.length) (ho : i < out.length),
        parseField (ds.get ⟨i, hd⟩) (ss.get ⟨i, hs⟩) = some (out.get ⟨i, ho⟩)
  | [], [], out, h => by
      simp only [parseAll, Option.some.injEq] at h
      subst h
      exact ⟨rfl, rfl, fun i hd _ _ => absurd hd (Nat.not_lt_zero i)⟩
  | [], _ :: _, _, h => by simp [parseAll] at h
  | _ :: _, [], _, h => by simp [parseAll] at h
  | d :: ds, s :: ss, out, h => by
      rw [parseAll] at h
      cases hf : parseField d s with
      | none => rw [hf] at h; exact absurd h (by simp)
      | some v =>
        cases hr : parseAll ds ss with
        | none => rw [hf, hr] at h; exact absurd h (by simp)
        | some vs =>
          rw [hf, hr] at h
          simp only [Option.some.injEq] at h
          subst h
          obtain ⟨h1, h2, h3⟩ := parseAll_some ds ss vs hr
          refine ⟨by simp [h1], by simp [h2], ?_⟩
          intro i hd hs ho
          cases i with
          | zero => simpa using hf
          | succ i =>
            exact h3 i (Nat.lt_of_succ_lt_succ hd) (Nat.lt_of_succ_lt_succ hs)
              (Nat.lt_of_succ_lt_succ ho)

/-- A successfully parsed field has the dtype of its column's default. -/
theorem parseField_dtype (d : Value) (s : String) (v : Value) :
    parseField d s = some v → v.dtype = d.dtype := by
  intro h
  unfold parseField at h
  by_cases hs : s = ""
  · rw [if_pos hs] at h
    cases h
    rfl
  · rw [if_neg hs] at h
    cases d with
    | I n =>
      cases hi : parseIntS s with
      | none => rw [hi] at h; exact absurd h (by simp)
      | some m => rw [hi] at h; cases h; rfl
    | F q =>
      cases hq : parseFloatS s with
      | none => rw [hq] at h; exact absurd h (by simp)
      | some r => rw [hq] at h; cases h; rfl

/-- An empty field parses to the column's default. -/
theorem parseField_empty (d : Value) : parseField d "" = some d := rfl

/-- A list of length seven is a literal seven-element list. -/
theorem list_eq_of_length_seven {α : Type} :
    ∀ l : List α, l.length = 7 →
      ∃ a b c d e f g, l = [a, b, c, d, e, f, g]
  | [a, b, c, d, e, f, g], _ => ⟨a, b, c, d, e, f, g, rfl⟩

/-- On success `decodeCsv` read exactly seven fields. -/
theorem decodeCsv_length (fields : List String) (out : List Value) :
    decodeCsv fields = some out → fields.length = 7 ∧ out.length = 7 := by
  intro h
  obtain ⟨h1, h2, _⟩ := parseAll_some CSV_DEFAULTS fields out h
  exact ⟨h1, h2⟩

/-! ### Claim theorems -/

/-- C2: the CSV schema is fixed: a row parses only when it has exactly the
seven columns `fare_amount, dayofweek, hourofday, pickuplon, pickuplat,
dropofflon, dropofflat` in that order; an empty field is replaced by that
column's fixed default (`0.0, 1, 0, -74.0, 40.0, -74.0, 40.7`); and each
parsed value has the type of its column's default (float for `fare_amount`
and the four coordinates, integer for `dayofweek` and `hourofday`). -/
theorem C2_csv_schema_and_defaults :
    CSV_COLUMN_NAMES =
      ["fare_amount", "dayofweek", "hourofday", "pickuplon", "pickuplat",
       "dropofflon", "dropofflat"] ∧
    CSV_DEFAULTS =
      [.F ⟨0, 1⟩, .I 1, .I 0, .F ⟨-740, 1⟩, .F ⟨400, 1⟩, .F ⟨-740, 1⟩,
       .F ⟨407, 1⟩] ∧
    CSV_DEFAULTS.map Value.dtype =
      [.float32, .int32, .int32, .float32, .float32, .float32, .float32] ∧
    ∀ (fields : List String) (out : List Value),
      decodeCsv fields = some out →
      fields.length = 7 ∧ out.length = 7 ∧
      ∀ i (hf : i < fields.length) (ho : i < out.length)
        (hd : i < CSV_DEFAULTS.length),
        (fields.get ⟨i, hf⟩ = "" →
          out.get ⟨i, ho⟩ = CSV_DEFAULTS.get ⟨i, hd⟩) ∧
        (out.get ⟨i, ho⟩).dtype = (CSV_DEFAULTS.get ⟨i, hd⟩).dtype := by
  refine ⟨rfl, rfl, rfl, ?_⟩
  intro fields out h
  obtain ⟨h1, h2, h3⟩ := parseAll_some CSV_DEFAULTS fields out h
  refine ⟨h1, h2, ?_⟩
  intro i hf ho hd
  have hp := h3 i hd hf ho
  constructor
  · intro he
    rw [he, parseField_empty] at hp
    exact (Option.some.injEq _ _ ▸ hp.symm : _)
  · exact parseField_dtype _ _ _ hp

/-- C2 witness: a concrete row with empty `fare_amount`, `hourofday`,
`dropofflon` and `dropofflat` fields parses, substituting the defaults. -/
theorem C2_witness :
    decodeCsv demoFields = some demoOut ∧
    (demoFields.length = 7 ∧ demoOut.length = 7 ∧
      ∀ i (hf : i < demoFields.length) (ho : i < demoOut.length)
        (hd : i < CSV_DEFAULTS.length),
        (demoFields.get ⟨i, hf⟩ = "" →
          demoOut.get ⟨i, ho⟩ = CSV_DEFAULTS.get ⟨i, hd⟩) ∧
        (demoOut.get ⟨i, ho⟩).dtype = (CSV_DEFAULTS.get ⟨i, hd⟩).dtype) :=
  ⟨by decide, C2_csv_schema_and_defaults.2.2.2 demoFields demoOut (by decide)⟩

/-- C1: whenever `parse_row` succeeds, the label is the parsed
`fare_amount` field (column 0) and the features form a dictionary whose
keys are exactly the six remaining columns, each bound to its parsed
field; `fare_amount` is not among the feature keys. -/
theorem C1_parse_row_features_label (row : String)
    (features : List (String × Value)) (label : Value) :
    parse_row row = some (features, label) →
    ∃ (v0 : Value) (rest : List Value),
      decodeCsv (splitRow row) = some (v0 :: rest) ∧
      rest.length = 6 ∧
      label = v0 ∧
      features = FEATURE_NAMES.zip rest ∧
      features.map Prod.fst =
        ["dayofweek", "hourofday", "pickuplon", "pickuplat", "dropofflon",
         "dropofflat"] ∧
      "fare_amount" ∉ features.map Prod.fst := by
  intro h
  unfold parse_row at h
  cases hd : decodeCsv (splitRow row) with
  | none => rw [hd] at h; exact absurd h (by simp)
  | some fields =>
    rw [hd] at h
    obtain ⟨-, hlen⟩ := decodeCsv_length _ _ hd
    obtain ⟨a, b, c, d, e, f, g, rfl⟩ := list_eq_of_length_seven fields hlen
    have h' :
        (some ([("dayofweek", b), ("hourofday", c), ("pickuplon", d),
                ("pickuplat", e), ("dropofflon", f), ("dropofflat", g)], a) :
          Option (List (String × Value) × Value)) = some (features, label) := h
    simp only [Option.some.injEq, Prod.mk.injEq] at h'
    obtain ⟨hfe, hla⟩ := h'
    subst hfe
    subst hla
    have hnm : "fare_amount" ∉
        (["dayofweek", "hourofday", "pickuplon", "pickuplat", "dropofflon",
          "dropofflat"] : List String) := by decide
    exact ⟨a, [b, c, d, e, f, g], rfl, rfl, rfl, rfl, rfl, hnm⟩

/-- C1 witness: `parse_row` on a concrete row yields the six-key feature
dictionary and the `fare_amount` label. -/
theorem C1_witness :
    parse_row demoRow = some (demoFeatures, Value.F ⟨105, 1⟩) ∧
    (∃ (v0 : Value) (rest : List Value),
      decodeCsv (splitRow demoRow) = some (v0 :: rest) ∧
      rest.length = 6 ∧
      Value.F ⟨105, 1⟩ = v0 ∧
      demoFeatures = FEATURE_NAMES.zip rest ∧
      demoFeatures.map Prod.fst =
        ["dayofweek", "hourofday", "pickuplon", "pickuplat", "dropofflon",
         "dropofflat"] ∧
      "fare_amount" ∉ demoFeatures.map Prod.fst) :=
  ⟨by decide,
   C1_parse_row_features_label demoRow demoFeatures (Value.F ⟨105, 1⟩)
     (by decide)⟩

/-- C8: for every file in the dataset the first (header) line is skipped
and the remaining lines are parsed by `parse_row` in their original order,
so no dataset element comes from a header line. -/
theorem C8_read_dataset_skips_headers :
    (∀ files : List (List String),
      read_dataset files =
        files.flatMap (fun lines => (lines.drop 1).map parse_row)) ∧
    (∀ (header : String) (rest : List String) (files : List (List String)),
      read_dataset ((header :: rest) :: files) =
        rest.map parse_row ++ read_dataset files) ∧
    ∀ files : List (List String),
      (read_dataset files).length =
        (files.map (fun lines => lines.length - 1)).sum := by
  have hmain : ∀ files : List (List String),
      read_dataset files =
        files.flatMap (fun lines => (lines.drop 1).map parse_row) := by
    intro files
    induction files with
    | nil => rfl
    | cons lines files ih =>
      simp only [read_dataset, List.flatMap_cons, List.map_append] at *
      rw [ih]
  refine ⟨hmain, ?_, ?_⟩
  · intro header rest files
    rw [hmain, hmain, List.flatMap_cons]
    rfl
  · intro files
    induction files with
    | nil => rfl
    | cons lines files ih =>
      simp only [read_dataset, List.flatMap_cons, List.map_append,
        List.length_append, List.map_cons, List.sum_cons] at *
      rw [ih]
      simp [List.length_drop]

/-- C6: column order/type matching: one default per column name (both
lists have length 7), `FEATURE_NAMES` is `CSV_COLUMN_NAMES` without its
first element `fare_amount`, and each feature's default has exactly the
dtype its serving-input placeholder declares (`int32` for `dayofweek` and
`hourofday`, `float32` for the four coordinate columns). -/
theorem C6_column_order_and_types :
    CSV_DEFAULTS.length = CSV_COLUMN_NAMES.length ∧
    CSV_COLUMN_NAMES.length = 7 ∧
    CSV_COLUMN_NAMES.headD "" = "fare_amount" ∧
    FEATURE_NAMES = CSV_COLUMN_NAMES.drop 1 ∧
    serving_input_receiver_fn.lookup "dayofweek" = some DType.int32 ∧
    serving_input_receiver_fn.lookup "hourofday" = some DType.int32 ∧
    serving_input_receiver_fn.lookup "pickuplon" = some DType.float32 ∧
    serving_input_receiver_fn.lookup "pickuplat" = some DType.float32 ∧
    serving_input_receiver_fn.lookup "dropofflon" = some DType.float32 ∧
    serving_input_receiver_fn.lookup "dropofflat" = some DType.float32 ∧
    ∀ k ∈ FEATURE_NAMES,
      ((CSV_COLUMN_NAMES.zip CSV_DEFAULTS).lookup k).map Value.dtype =
        serving_input_receiver_fn.lookup k := by
  decide

/-- The summed squared residuals are nonnegative. -/
theorem zipWith_sq_sum_nonneg :
    ∀ (labels pred_values : List ℝ),
      0 ≤ (List.zipWith (fun l p => (l - p) ^ 2) labels pred_values).sum
  | [], _ => by simp
  | _ :: _, [] => by simp
  | l :: ls, p :: ps => by
      simp only [List.zipWith_cons_cons, List.sum_cons]
      exact add_nonneg (sq_nonneg _) (zipWith_sq_sum_nonneg ls ps)

/-- C5: for every `model_dir` and `train_steps`, `create_model` builds a
regressor with two hidden layers of 10 units, numeric feature columns for
exactly the six non-label CSV columns, and one added metric function,
`my_rmse`, which reports the single metric `"rmse"`, the root mean squared
error between the labels and the squeezed `"predictions"` values. -/
theorem C5_create_model_structure (model_dir : String) (train_steps : Int) :
    (create_model model_dir train_steps).hidden_units = [10, 10] ∧
    (create_model model_dir train_steps).feature_columns.map
        NumericColumn.key =
      ["dayofweek", "hourofday", "pickuplon", "pickuplat", "dropofflon",
       "dropofflat"] ∧
    (create_model model_dir train_steps).metric_fns = [my_rmse] ∧
    (∀ (labels : List ℝ) (pvs : List (List ℝ)),
      my_rmse labels [("predictions", pvs)] =
        (squeeze pvs).map (fun pred_values =>
          [("rmse", root_mean_squared_error labels pred_values)])) ∧
    ∀ labels pred_values : List ℝ,
      0 ≤ root_mean_squared_error labels pred_values ∧
      root_mean_squared_error labels pred_values ^ 2 =
        (List.zipWith (fun l p => (l - p) ^ 2) labels pred_values).sum /
          ((List.zipWith (fun l p => (l - p) ^ 2) labels
              pred_values).length : ℝ) := by
  refine ⟨rfl, rfl, rfl, fun labels pvs => rfl, fun labels pred_values => ?_⟩
  have hnn :
      0 ≤ (List.zipWith (fun l p => (l - p) ^ 2) labels pred_values).sum /
        ((List.zipWith (fun l p => (l - p) ^ 2) labels
            pred_values).length : ℝ) :=
    div_nonneg (zipWith_sq_sum_nonneg labels pred_values)
      (Nat.cast_nonneg _)
  exact ⟨Real.sqrt_nonneg _, Real.sq_sqrt hnn⟩

/-- C10: the checkpoint-save interval configured by `create_model` is
exactly `max(10, train_steps // 10)` in exact integer arithmetic: it is
never below 10, it equals `train_steps // 10` precisely when
`train_steps ≥ 100`, and the run configuration fixes the random seed
to 1. -/
theorem C10_checkpoint_interval_and_seed (model_dir : String)
    (train_steps : Int) :
    (create_model model_dir train_steps).config.save_checkpoints_steps =
      max 10 (Int.fdiv train_steps 10) ∧
    10 ≤ (create_model model_dir train_steps).config.save_checkpoints_steps ∧
    ((create_model model_dir train_steps).config.save_checkpoints_steps =
        Int.fdiv train_steps 10 ↔ 100 ≤ train_steps) ∧
    (create_model model_dir train_steps).config.tf_random_seed = 1 := by
  refine ⟨rfl, le_max_left _ _, ?_, rfl⟩
  have hfd : Int.fdiv train_steps 10 = train_steps / 10 :=
    Int.fdiv_eq_ediv _ (by norm_num)
  show max 10 (Int.fdiv train_steps 10) = Int.fdiv train_steps 10 ↔
    100 ≤ train_steps
  rw [max_eq_right_iff, hfd]
  omega

/-- Successful string reads come from a string entry of the dictionary. -/
theorem getStr_ok (params : List (String × ArgVal)) (k v : String) :
    getStr params k = .ok v → params.lookup k = some (ArgVal.s v) := by
  intro h
  unfold getStr at h
  cases hl : params.lookup k with
  | none => rw [hl] at h; exact absurd h (by simp)
  | some a =>
    rw [hl] at h
    cases a with
    | s w => cases h; rfl
    | i n => exact absurd h (by simp)
    | vnone => exact absurd h (by simp)

/-- `shutil.rmtree(dir, ignore_errors = True)` always returns normally,
and afterwards no surviving path lies under `dir` — also when `dir` did
not exist. -/
theorem shutil_rmtree_clears (dir : String) (fs : List String) :
    ∃ fs', shutil_rmtree dir true fs = .ok fs' ∧
      ∀ p ∈ fs', isUnder dir p = false := by
  unfold shutil_rmtree rmtreeRaw
  by_cases h : fs.any (fun p => isUnder dir p) = true
  · rw [if_pos h]
    refine ⟨_, rfl, ?_⟩
    intro p hp
    have := List.of_mem_filter hp
    simpa using this
  · rw [if_neg h]
    refine ⟨fs, rfl, ?_⟩
    intro p hp
    by_contra hc
    exact h (List.any_eq_true.mpr ⟨p, hp, by simpa using hc⟩)

/-- C4: `train_and_evaluate` recursively deletes the directory named by
`params["output_dir"]` before the training hand-off (the deletion event
precedes the training event), and the deletion returns normally on every
filesystem — also when the directory does not exist — leaving no path
under the output directory. -/
theorem C4_clears_output_dir_before_training
    (params : List (String × ArgVal)) (plan : RunPlan) (fs : List String) :
    train_and_evaluate params = .ok plan →
    ∃ od : String,
      params.lookup "output_dir" = some (ArgVal.s od) ∧
      plan.effects = [Event.rmtree od true, Event.tfTrainAndEvaluate] ∧
      ∃ fs', shutil_rmtree od true fs = .ok fs' ∧
        ∀ p ∈ fs', isUnder od p = false := by
  intro h
  unfold train_and_evaluate at h
  cases ho : getStr params "output_dir" with
  | error e => rw [ho] at h; exact nomatch h
  | ok od =>
    rw [ho] at h
    cases ht : getStr params "train_data_path" with
    | error e => rw [ht] at h; exact nomatch h
    | ok t =>
      rw [ht] at h
      cases he : getStr params "eval_data_path" with
      | error e => rw [he] at h; exact nomatch h
      | ok e =>
        rw [he] at h
        cases hn : getInt params "train_steps" with
        | error e' => rw [hn] at h; exact nomatch h
        | ok n =>
          rw [hn] at h
          have h' :
              ({ model := create_model od n,
                 train_spec := { input_path := t, max_steps := n },
                 eval_spec :=
                   { input_path := e, steps := Option.none,
                     start_delay_secs := 1, throttle_secs := 1,
                     exporter_name := "exporter" },
                 effects := [Event.rmtree od true,
                   Event.tfTrainAndEvaluate] } : RunPlan) = plan := by
            injection h
          subst h'
          exact ⟨od, getStr_ok params "output_dir" od ho, rfl,
            shutil_rmtree_clears od fs⟩

/-- C4 witness: on a concrete parameter dictionary and a filesystem in
which the output directory `out` does not exist, the deletion still
returns normally and the plan deletes before training. -/
theorem C4_witness :
    train_and_evaluate demoDict = Except.ok demoPlan ∧
    (∃ od : String,
      demoDict.lookup "output_dir" = some (ArgVal.s od) ∧
      demoPlan.effects = [Event.rmtree od true, Event.tfTrainAndEvaluate] ∧
      ∃ fs', shutil_rmtree od true ["keep.txt"] = .ok fs' ∧
        ∀ p ∈ fs', isUnder od p = false) :=
  ⟨rfl, C4_clears_output_dir_before_training demoDict demoPlan ["keep.txt"]
    rfl⟩

/-- C3 counterexample: the underlying recursive deletion fails
(`FileNotFoundError`) on a filesystem without the directory, yet the
repository's call — `shutil.rmtree` with `ignore_errors = True` —
returns normally, so a failing underlying file-deletion call does not
propagate to the caller. -/
theorem C3_counterexample :
    rmtreeRaw "taxi_trained" ["f.txt"] = Except.error "FileNotFoundError" ∧
    shutil_rmtree "taxi_trained" true ["f.txt"] = Except.ok ["f.txt"] :=
  ⟨rfl, rfl⟩

/-- C3 (amended): no operation in the repository catches or transforms an
error except the output-directory deletion: `train_and_evaluate` invokes
`shutil.rmtree` with `ignore_errors = True`, which suppresses every
deletion failure; parsing failures and missing-parameter failures
propagate unchanged. -/
theorem C3_error_propagation_except_rmtree :
    (∀ (dir : String) (fs : List String) (err : String),
      rmtreeRaw dir fs = .error err → shutil_rmtree dir true fs = .ok fs) ∧
    (∀ row : String,
      decodeCsv (splitRow row) = Option.none → parse_row row = Option.none) ∧
    ∀ (params : List (String × ArgVal)) (err : String),
      getStr params "output_dir" = .error err →
      train_and_evaluate params = .error err := by
  refine ⟨?_, ?_, ?_⟩
  · intro dir fs err h
    unfold shutil_rmtree
    rw [h]
    rfl
  · intro row h
    unfold parse_row
    rw [h]
  · intro params err h
    unfold train_and_evaluate
    rw [h]
    rfl

/-- C3 witness: a suppressed deletion failure, a propagated parse failure
(two fields instead of seven) and a propagated `KeyError` on an empty
parameter dictionary. -/
theorem C3_witness :
    shutil_rmtree "m" true ["other.txt"] = Except.ok ["other.txt"] ∧
    parse_row "a,b" = Option.none ∧
    train_and_evaluate [] = Except.error "KeyError: output_dir" :=
  ⟨C3_error_propagation_except_rmtree.1 "m" ["other.txt"]
      "FileNotFoundError" rfl,
   C3_error_propagation_except_rmtree.2.1 "a,b" rfl,
   C3_error_propagation_except_rmtree.2.2 [] "KeyError: output_dir" rfl⟩

/-- Inversion of a successful CLI parse: the dictionary is `mkDict` with
some parsed step count. -/
theorem parseArgs_ok_inv (t : String) (ts : Option String) (e o : String)
    (jd : Option String) (d : List (String × ArgVal)) :
    parseArgs (some t) ts (some e) (some o) jd = .ok d →
    ∃ m : Int, d = mkDict t m e o jd := by
  cases ts with
  | none =>
    intro h
    refine ⟨1000, ?_⟩
    have h' : Except.ok (ε := String) (mkDict t 1000 e o jd) = .ok d := h
    injection h' with h''
    exact h''.symm
  | some s =>
    intro h
    cases hi : parseIntS s with
    | none =>
      rw [parseArgs] at h
      rw [hi] at h
      exact nomatch h
    | some m =>
      refine ⟨m, ?_⟩
      rw [parseArgs] at h
      rw [hi] at h
      injection h with h''
      exact h''.symm

/-- C7: a successful CLI parse yields a dictionary with exactly the keys
`train_data_path`, `train_steps`, `eval_data_path`, `output_dir`,
`job_dir`; `task.py` passes that dictionary unchanged to
`train_and_evaluate`, which reads `output_dir`, `train_data_path`,
`eval_data_path` and `train_steps` from it into the run it assembles. -/
theorem C7_cli_dict_passed_unchanged (t : String) (ts : Option String)
    (e o : String) (jd : Option String) (d : List (String × ArgVal))
    (n : Int) :
    parseArgs (some t) ts (some e) (some o) jd = .ok d →
    d.lookup "train_steps" = some (ArgVal.i n) →
    d.map Prod.fst =
      ["train_data_path", "train_steps", "eval_data_path", "output_dir",
       "job_dir"] ∧
    task_main (some t) ts (some e) (some o) jd = train_and_evaluate d ∧
    (train_and_evaluate d).map planOutputDir = .ok o ∧
    (train_and_evaluate d).map planTrainPath = .ok t ∧
    (train_and_evaluate d).map planEvalPath = .ok e ∧
    (train_and_evaluate d).map planTrainSteps = .ok n := by
  intro hp hn
  have htm : task_main (some t) ts (some e) (some o) jd =
      train_and_evaluate d := by
    unfold task_main
    rw [hp]
    rfl
  obtain ⟨m, rfl⟩ := parseArgs_ok_inv t ts e o jd d hp
  have hmn : ArgVal.i m = ArgVal.i n := by
    have h' : some (ArgVal.i m) = some (ArgVal.i n) := hn
    injection h'
  have hmn' : m = n := by injection hmn
  subst hmn'
  exact ⟨rfl, htm, rfl, rfl, rfl, rfl⟩

/-- C7 witness: the concrete parse of
`--train_data_path=t.csv --eval_data_path=e.csv --output_dir=out`
produces exactly the five keys and is consumed unchanged. -/
theorem C7_witness :
    parseArgs (some "t.csv") Option.none (some "e.csv") (some "out")
        Option.none = .ok demoDict ∧
    demoDict.lookup "train_steps" = some (ArgVal.i 1000) ∧
    (demoDict.map Prod.fst =
      ["train_data_path", "train_steps", "eval_data_path", "output_dir",
       "job_dir"] ∧
    task_main (some "t.csv") Option.none (some "e.csv") (some "out")
        Option.none = train_and_evaluate demoDict ∧
    (train_and_evaluate demoDict).map planOutputDir = .ok "out" ∧
    (train_and_evaluate demoDict).map planTrainPath = .ok "t.csv" ∧
    (train_and_evaluate demoDict).map planEvalPath = .ok "e.csv" ∧
    (train_and_evaluate demoDict).map planTrainSteps = .ok 1000) :=
  ⟨rfl, rfl,
   C7_cli_dict_passed_unchanged "t.csv" Option.none "e.csv" "out"
     Option.none demoDict 1000 rfl rfl⟩

/-- C9: CLI parsing rejects an invocation missing `--train_data_path`,
`--eval_data_path` or `--output_dir`; a missing `--train_steps` defaults
to the integer 1000; `--job-dir` is accepted, and its value never affects
the outcome — `train_and_evaluate` does not read it. -/
theorem C9_required_args_and_jobdir :
    (∀ ts edp od jd, ∃ err,
      parseArgs Option.none ts edp od jd = .error err) ∧
    (∀ tdp ts od jd, ∃ err,
      parseArgs tdp ts Option.none od jd = .error err) ∧
    (∀ tdp ts edp jd, ∃ err,
      parseArgs tdp ts edp Option.none jd = .error err) ∧
    (∀ (t e o : String) (jd : Option String) (d : List (String × ArgVal)),
      parseArgs (some t) Option.none (some e) (some o) jd = .ok d →
      d.lookup "train_steps" = some (ArgVal.i 1000)) ∧
    (∀ (t e o : String) (jd : Option String), ∃ d,
      parseArgs (some t) Option.none (some e) (some o) jd = .ok d) ∧
    ∀ (tdp ts edp od : Option String) (jd jd' : Option String),
      task_main tdp ts edp od jd = task_main tdp ts edp od jd' := by
  refine ⟨?_, ?_, ?_, ?_, ?_, ?_⟩
  · intro ts edp od jd
    exact ⟨_, rfl⟩
  · intro tdp ts od jd
    cases tdp <;> exact ⟨_, rfl⟩
  · intro tdp ts edp jd
    cases tdp <;> cases edp <;> exact ⟨_, rfl⟩
  · intro t e o jd d hp
    obtain ⟨m, rfl⟩ := parseArgs_ok_inv t Option.none e o jd d hp
    have h' : Except.ok (ε := String) (mkDict t 1000 e o jd) =
        .ok (mkDict t m e o jd) := hp
    injection h' with h''
    rw [← h'']
    rfl
  · intro t e o jd
    exact ⟨_, rfl⟩
  · intro tdp ts edp od jd jd'
    cases tdp with
    | none => rfl
    | some t =>
      cases edp with
      | none => rfl
      | some e =>
        cases od with
        | none => rfl
        | some o =>
          cases ts with
          | none => rfl
          | some s =>
            cases hi : parseIntS s with
            | none => simp [task_main, parseArgs, hi]
            | some m =>
              simp only [task_main, parseArgs, hi]
              rfl

/-- C9 witness: leaving out `--train_data_path` is rejected; with the
three required arguments and no `--train_steps` the parsed dictionary
holds `train_steps = 1000`; two different `--job-dir` values leave the
outcome unchanged. -/
theorem C9_witness :
    (∃ err, parseArgs Option.none Option.none (some "e.csv") (some "out")
      Option.none = .error err) ∧
    demoDict.lookup "train_steps" = some (ArgVal.i 1000) ∧
    task_main (some "t.csv") Option.none (some "e.csv") (some "out")
        (some "gs://b/dir") =
      task_main (some "t.csv") Option.none (some "e.csv") (some "out")
        Option.none :=
  ⟨C9_required_args_and_jobdir.1 Option.none (some "e.csv") (some "out")
      Option.none,
   C9_required_args_and_jobdir.2.2.2.1 "t.csv" "e.csv" "out" Option.none
     demoDict rfl,
   C9_required_args_and_jobdir.2.2.2.2.2 (some "t.csv") Option.none
     (some "e.csv") (some "out") (some "gs://b/dir") Option.none⟩

end TaxifareModel
